import Mathlib

/-!
Verification of the DDB workflow engine (orchestrator / worker / broadcaster)
against its natural-language specification.

The definitions below are a shallow embedding of the Python sources:
  * `src/ddb_workflow/worker_lambda.py`
  * `src/ddb_workflow/orchestrator_lambda.py`
  * `src/api/websocket_api.py`
  * `src/api/workflows_api.py`
DynamoDB items are modelled as records, conditional updates as
`Option`-returning record transformers, the per-workflow task table as a
function from task ids to optional records, and external effects (Lambda
invocation, WebSocket sends) as explicit outcome parameters.
-/

namespace Orchestra

/-- Task/workflow status, from `workflow_types.py` (`Status` literal). -/
inductive Status
  | PENDING
  | READY
  | RUNNING
  | SUCCEEDED
  | FAILED
  | CANCELED
deriving DecidableEq, Repr

/-- A TASK record of the workflow table, with the attributes read and
written by the two lambdas (`status`, `remainingDeps`, `version`,
`dependsOn`/`dependents` comma-joined, `targetLambdaArn`, and the
terminal-transition outputs `result`/`error`/`durationMs`). -/
structure TaskRec where
  taskId : String
  status : Status
  dependsOn : String
  dependents : String
  remainingDeps : Int
  version : Nat
  targetLambdaArn : String
  result : Option String
  error : Option String
  durationMs : Option Nat
deriving DecidableEq, Repr

/-- Orchestrator promotion (`orchestrator_lambda.py` handler, the second
`ddb.update_item` of the dependency loop):
`SET status=READY, version=version+1  WHERE status=PENDING`.
`none` models `ConditionalCheckFailedException` (swallowed by the code). -/
def promoteUpdate (t : TaskRec) : Option TaskRec :=
  if t.status = Status.PENDING then
    some { t with status := Status.READY, version := t.version + 1 }
  else none

/-- Orchestrator decrement (`orchestrator_lambda.py` handler, the first
`ddb.update_item` of the dependency loop):
`SET remainingDeps = remainingDeps - 1  WHERE remainingDeps > 0`. -/
def decrementUpdate (t : TaskRec) : Option TaskRec :=
  if t.remainingDeps > 0 then
    some { t with remainingDeps := t.remainingDeps - 1 }
  else none

/-- Worker claim (`worker_lambda.py` handler, first `ddb.update_item`):
`SET status=RUNNING, version=version+1  WHERE status=READY AND version=:ver`. -/
def claimUpdate (expectedVersion : Nat) (t : TaskRec) : Option TaskRec :=
  if t.status = Status.READY ∧ t.version = expectedVersion then
    some { t with status := Status.RUNNING, version := t.version + 1 }
  else none

/-- Worker success finalize (`worker_lambda.py` handler, second
`ddb.update_item`): `SET status=SUCCEEDED, result=:res, durationMs=:dur`
(unconditional). -/
def finalizeSuccess (t : TaskRec) (res : String) (dur : Nat) : TaskRec :=
  { t with status := Status.SUCCEEDED, result := some res, durationMs := some dur }

/-- Worker failure finalize (`worker_lambda.py` handler, the `except`
branch): `SET status=FAILED, error=:err` (unconditional). -/
def finalizeFailure (t : TaskRec) (msg : String) : TaskRec :=
  { t with status := Status.FAILED, error := some msg }

/-- `TaskExecutionRequest` from `workflow_types.py`. -/
structure TaskExecutionRequest where
  workflowId : String
  taskId : String
  targetLambdaArn : String
  expectedVersion : Nat
  deadlineMs : Nat
  correlationId : String
deriving DecidableEq, Repr

/-- Outcome of the synchronous Lambda invocation performed by the worker:
either a decoded JSON payload together with the measured duration, or an
exception message (invocation error or non-JSON payload). -/
inductive InvokeResult
  | success (resultJson : String) (durationMs : Nat)
  | failure (message : String)
deriving DecidableEq, Repr

/-- The worker handler's return value
(`{"ok": False, "reason": ...}` / `{"ok": True, "status": "SUCCEEDED", ...}`
/ `{"ok": False, "status": "FAILED", ...}`). -/
inductive WorkerResp
  | rejected (reason : String)
  | succeededResp (durationMs : Nat)
  | failedResp (error : String)
deriving DecidableEq, Repr

/-- Result of one worker invocation: the task record after the handler ran,
the handler's response, and whether the target Lambda was invoked. -/
structure WorkerRun where
  task : Option TaskRec
  resp : WorkerResp
  invoked : Bool
deriving DecidableEq, Repr

/-- `worker_lambda.handler`, given the stored task record (if any) and the
outcome of the target invocation. A conditional update against a missing
item raises `ConditionalCheckFailedException`, hence the `none` row. -/
def workerHandler (req : TaskExecutionRequest) (inv : InvokeResult)
    (stored : Option TaskRec) : WorkerRun :=
  match stored with
  | none => ⟨none, WorkerResp.rejected "Not READY or version mismatch", false⟩
  | some t =>
    match claimUpdate req.expectedVersion t with
    | none => ⟨some t, WorkerResp.rejected "Not READY or version mismatch", false⟩
    | some running =>
      match inv with
      | InvokeResult.success res dur =>
          ⟨some (finalizeSuccess running res dur), WorkerResp.succeededResp dur, true⟩
      | InvokeResult.failure msg =>
          ⟨some (finalizeFailure running msg), WorkerResp.failedResp msg, true⟩

/-! ## Orchestrator: dependency-decrement protocol (stream fan-out) -/

/-- The TASK records of one workflow partition, keyed by taskId. -/
def Store : Type := String → Option TaskRec

/-- Point update of a task record (one `ddb.update_item` applied). -/
def setTask (s : Store) (d : String) (t : TaskRec) : Store :=
  fun k => if k = d then some t else s k

/-- The `TaskExecutionRequest` the orchestrator queues when a dependent is
promoted (`orchestrator_lambda.py`, `tasks_to_execute.append(...)`):
post-image `version` and `targetLambdaArn`, `deadlineMs=15000`,
`correlationId=workflowId`. -/
def mkExecRequest (wf dep : String) (t : TaskRec) : TaskExecutionRequest :=
  { workflowId := wf, taskId := dep, targetLambdaArn := t.targetLambdaArn,
    expectedVersion := t.version, deadlineMs := 15000, correlationId := wf }

/-- One iteration of the dependency loop of `orchestrator_lambda.handler`
for a single dependent `dep`: guarded decrement, then, if the post-image
`remainingDeps` is `0`, guarded promotion and queueing of a
`TaskExecutionRequest`. Rejected conditions are swallowed. A conditional
update against an absent item is also a rejected condition. -/
def processDependent (wf : String) (s : Store) (dep : String) :
    Store × List TaskExecutionRequest :=
  match s dep with
  | none => (s, [])
  | some t =>
    match decrementUpdate t with
    | none => (s, [])
    | some t1 =>
      let s1 := setTask s dep t1
      if t1.remainingDeps = 0 then
        match promoteUpdate t1 with
        | none => (s1, [])
        | some t2 => (setTask s1 dep t2, [mkExecRequest wf dep t2])
      else (s1, [])

/-- The dependency loop over all dependents of a just-succeeded parent
(`for dep in dependents:` in `orchestrator_lambda.handler`), collecting
the queued `TaskExecutionRequest`s. -/
def processDependents (wf : String) (s : Store) :
    List String → Store × List TaskExecutionRequest
  | [] => (s, [])
  | d :: ds =>
    let p := processDependent wf s d
    let q := processDependents wf p.1 ds
    (q.1, p.2 ++ q.2)

/-- Processing the same parent-succeeded change-log event `n` times
(at-least-once stream delivery), accumulating all emitted requests. -/
def replayEvent (wf : String) (deps : List String) :
    Nat → Store → Store × List TaskExecutionRequest
  | 0, s => (s, [])
  | Nat.succ n, s =>
    let p := processDependents wf s deps
    let q := replayEvent wf deps n p.1
    (q.1, p.2 ++ q.2)

/-! ## Persisted items and the seed operation -/

/-- A persisted item of the workflow table (`META` or `TASK` row), with the
attributes written at seed time; `META` rows leave the task-only
attributes absent. -/
structure Item where
  pk : String
  sk : String
  itemType : String
  taskId : Option String
  status : Status
  dependsOn : Option String
  dependents : Option String
  remainingDeps : Option Int
  version : Option Nat
  targetLambdaArn : Option String
deriving DecidableEq, Repr

/-- `_pk` of both lambdas: `"WORKFLOW#" + workflowId`. -/
def pkOf (wf : String) : String := "WORKFLOW#" ++ wf

/-- `_sk_meta`: `"META#WORKFLOW"`. -/
def skMeta : String := "META#WORKFLOW"

/-- `_sk_task`: `"TASK#" + taskId`. -/
def skTask (taskId : String) : String := "TASK#" ++ taskId

/-- Failure of the seed operation: a Python `KeyError` raised by
`lambdas[taskId]` when the address mapping lacks a task id. -/
inductive SeedError
  | keyError (key : String)
deriving DecidableEq, Repr

/-- `lambdas[k]` on a Python dict: the value, or a `KeyError` naming `k`. -/
def getKey (lambdas : List (String × String)) (k : String) :
    Except SeedError String :=
  match lambdas.lookup k with
  | some v => Except.ok v
  | none => Except.error (SeedError.keyError k)

/-- The META item written by `_start_from_template`. -/
def metaItem (wf : String) : Item :=
  { pk := pkOf wf, sk := skMeta, itemType := "META", taskId := none,
    status := Status.PENDING, dependsOn := none, dependents := none,
    remainingDeps := none, version := none, targetLambdaArn := none }

/-- A TASK item written by `_start_from_template`:
`status = READY if task_id == "A" else PENDING`,
`remainingDeps = 0 if task_id == "A" else len(dependsOn)`,
`dependsOn`/`dependents` comma-joined, `version = 0`. -/
def taskSeedItem (wf id : String) (dependsOn dependents : List String)
    (target : String) : Item :=
  { pk := pkOf wf, sk := skTask id, itemType := "TASK", taskId := some id,
    status := if id = "A" then Status.READY else Status.PENDING,
    dependsOn := some (String.intercalate "," dependsOn),
    dependents := some (String.intercalate "," dependents),
    remainingDeps := some (if id = "A" then 0 else (dependsOn.length : Int)),
    version := some 0,
    targetLambdaArn := some target }

/-- Result of a successful seed: the items batch-written and the
`TaskExecutionRequest` used to trigger the root task `A`. -/
structure Seeded where
  items : List Item
  trigger : TaskExecutionRequest
deriving DecidableEq, Repr

/-- `_start_from_template` of `orchestrator_lambda.py`: builds the META
item and the items of the hard-coded graph
`A → {B1,B2,B3} → C`, looking each task's address up in `lambdas` (the
dict accesses `lambdas["A"]`, …, `lambdas["C"]` happen in this order while
the `graph` literal is built, before any write), batch-writes them, and
triggers `A` with `expectedVersion=0`, `deadlineMs=15000`. -/
def startFromTemplate (wf : String) (lambdas : List (String × String)) :
    Except SeedError Seeded :=
  match getKey lambdas "A" with
  | Except.error e => Except.error e
  | Except.ok la =>
  match getKey lambdas "B1" with
  | Except.error e => Except.error e
  | Except.ok lb1 =>
  match getKey lambdas "B2" with
  | Except.error e => Except.error e
  | Except.ok lb2 =>
  match getKey lambdas "B3" with
  | Except.error e => Except.error e
  | Except.ok lb3 =>
  match getKey lambdas "C" with
  | Except.error e => Except.error e
  | Except.ok lc =>
    Except.ok
      { items :=
          [ metaItem wf,
            taskSeedItem wf "A" [] ["B1", "B2", "B3"] la,
            taskSeedItem wf "B1" ["A"] ["C"] lb1,
            taskSeedItem wf "B2" ["A"] ["C"] lb2,
            taskSeedItem wf "B3" ["A"] ["C"] lb3,
            taskSeedItem wf "C" ["B1", "B2", "B3"] [] lc ],
        trigger :=
          { workflowId := wf, taskId := "A", targetLambdaArn := la,
            expectedVersion := 0, deadlineMs := 15000, correlationId := wf } }

/-! ## Workflow status recomputation -/

/-- The status chain of `_update_workflow_status`
(`orchestrator_lambda.py`): any FAILED → FAILED; all SUCCEEDED →
SUCCEEDED; any RUNNING or READY → RUNNING; any PENDING → PENDING;
fallback PENDING. -/
def computeWorkflowStatus (taskStatuses : List Status) : Status :=
  if taskStatuses.any (fun s => s = Status.FAILED) then Status.FAILED
  else if taskStatuses.all (fun s => s = Status.SUCCEEDED) then Status.SUCCEEDED
  else if taskStatuses.any (fun s => s = Status.RUNNING ∨ s = Status.READY) then
    Status.RUNNING
  else if taskStatuses.any (fun s => s = Status.PENDING) then Status.PENDING
  else Status.PENDING

/-- The TASK rows of the workflow `wf` in `table` (the query of
`_update_workflow_status`: `pk = :pk` with filter `type = "TASK"`). -/
def tasksOf (table : List Item) (wf : String) : List Item :=
  (table.filter (fun i => i.pk = pkOf wf)).filter (fun i => i.itemType = "TASK")

/-- `_update_workflow_status`: queries the TASK rows, returns early when
there are none (`if not tasks: return`), otherwise the status it writes to
the META row. -/
def updateWorkflowStatus (table : List Item) (wf : String) : Option Status :=
  let tasks := tasksOf table wf
  if tasks = [] then none
  else some (computeWorkflowStatus (tasks.map (fun i => i.status)))

/-- Modelled from the spec (§4.2.4 tabulation, the function claim C2
compares against): FAILED if any task is FAILED; otherwise SUCCEEDED if
all tasks are SUCCEEDED; otherwise RUNNING if any task is RUNNING or
READY; otherwise PENDING. -/
def specWorkflowStatus (taskStatuses : List Status) : Status :=
  if taskStatuses.any (fun s => s = Status.FAILED) then Status.FAILED
  else if taskStatuses.all (fun s => s = Status.SUCCEEDED) then Status.SUCCEEDED
  else if taskStatuses.any (fun s => s = Status.RUNNING ∨ s = Status.READY) then
    Status.RUNNING
  else Status.PENDING

/-! ## Stream-event routing of the orchestrator handler -/

/-- The fields of a DynamoDB stream image that the orchestrator handler
reads for routing (`new_img.get("type")`, `.get("status")`); absent
attributes are `none`. -/
structure StreamImage where
  imgType : Option String
  status : Option Status
deriving DecidableEq, Repr

/-- One stream record (`eventName`, `OldImage`, `NewImage`); an absent or
empty image is `none` (`if not new_img: continue`). -/
structure StreamRecord where
  eventName : String
  oldImage : Option StreamImage
  newImage : Option StreamImage
deriving DecidableEq, Repr

/-- What the orchestrator handler does with one stream record:
`ignore` (plain `continue`), `statusRecompute` (recompute META status and
broadcast, no fan-out), or `fanout` (dependency fan-out, which also
recomputes and broadcasts). -/
inductive ReactAction
  | ignore
  | statusRecompute
  | fanout
deriving DecidableEq, Repr

/-- The routing logic of `orchestrator_lambda.handler` for one stream
record: skip events other than MODIFY/INSERT and records without a new
image; fan out on TASK records newly SUCCEEDED; otherwise recompute and
broadcast only when a TASK's status changed to SUCCEEDED or FAILED. -/
def routeRecord (rec : StreamRecord) : ReactAction :=
  if rec.eventName ≠ "MODIFY" ∧ rec.eventName ≠ "INSERT" then ReactAction.ignore
  else
    match rec.newImage with
    | none => ReactAction.ignore
    | some newImg =>
      let statusOld := rec.oldImage.bind (fun o => o.status)
      if newImg.imgType ≠ some "TASK" ∨ newImg.status ≠ some Status.SUCCEEDED ∨
          statusOld = some Status.SUCCEEDED then
        if newImg.imgType = some "TASK" ∧
            (newImg.status = some Status.SUCCEEDED ∨ newImg.status = some Status.FAILED) ∧
            statusOld ≠ newImg.status then
          ReactAction.statusRecompute
        else ReactAction.ignore
      else ReactAction.fanout

/-! ## WebSocket broadcasters and the connection registry -/

/-- A row of the connections table: connection id plus the optional
per-workflow filter stored at `$connect`. -/
structure Conn where
  connectionId : String
  workflowId : Option String
deriving DecidableEq, Repr

/-- Outcome of `post_to_connection` for a given connection id. `gone` is
`GoneException`, `forbidden` an error whose text contains "Forbidden",
`transient` any other send error. -/
inductive SendOutcome
  | ok
  | gone
  | forbidden
  | transient
deriving DecidableEq, Repr

/-- `connections_table.delete_item(Key={"connectionId": cid})`. -/
def deleteConn (reg : List Conn) (cid : String) : List Conn :=
  reg.filter (fun c => c.connectionId ≠ cid)

/-- The send loop shared by both broadcasters: iterate over the scanned
snapshot, attempt each connection satisfying `attempt`, and delete from
the registry each attempted connection whose send outcome satisfies
`remove`. Returns the registry after the loop and the ids attempted. -/
def broadcastLoop (attempt : Conn → Bool) (remove : Conn → Bool) :
    List Conn → List Conn → List Conn × List String
  | reg, [] => (reg, [])
  | reg, c :: rest =>
    if attempt c then
      if remove c then
        let p := broadcastLoop attempt remove (deleteConn reg c.connectionId) rest
        (p.1, c.connectionId :: p.2)
      else
        let p := broadcastLoop attempt remove reg rest
        (p.1, c.connectionId :: p.2)
    else broadcastLoop attempt remove reg rest

/-- Filter of `websocket_api.broadcast_workflow_update`: send iff the
connection's stored `workflowId` is absent or equals the broadcast's
workflow (`if not conn_workflow or conn_workflow == workflow_id`). -/
def matchesFilter (wf : String) (c : Conn) : Bool :=
  match c.workflowId with
  | none => true
  | some w => w = wf

/-- `websocket_api.broadcast_workflow_update` + `send_to_connection`:
scan the registry, send to filtered connections, and delete a connection
exactly when its send raises `GoneException`; other `ClientError`s are
logged and the connection kept. -/
def broadcastWsRun (wf : String) (send : String → SendOutcome)
    (reg : List Conn) : List Conn × List String :=
  broadcastLoop (matchesFilter wf)
    (fun c => send c.connectionId = SendOutcome.gone) reg reg

/-- `_broadcast_workflow_update` of `orchestrator_lambda.py`: scan the
registry and send to every connection (no filter); delete a connection on
`GoneException` and also on errors containing "Forbidden"; other errors
are logged and the connection kept. -/
def broadcastOrchRun (_wf : String) (send : String → SendOutcome)
    (reg : List Conn) : List Conn × List String :=
  broadcastLoop (fun _ => true)
    (fun c => send c.connectionId = SendOutcome.gone ∨
      send c.connectionId = SendOutcome.forbidden) reg reg

/-! ## Workflows REST API: GET /workflows/\x7bid\x7d -/

/-- The fixed `dag` mapping hard-coded in `_get_workflow_by_id`
(`workflows_api.py`). -/
def fixedDag : List (String × List String) :=
  [("A", ["B1", "B2", "B3"]), ("B1", ["C"]), ("B2", ["C"]), ("B3", ["C"]),
   ("C", [])]

/-- The response of `_get_workflow_by_id`, structurally: status code plus
the JSON body's fields (absent fields are `none`). -/
structure ApiResponse where
  statusCode : Nat
  workflowId : Option String
  status : Option Status
  tasks : Option (List Item)
  dag : Option (List (String × List String))
  errMsg : Option String
deriving DecidableEq, Repr

/-- `_query_workflow`: query the partition, take the first item with
`sk == "META#WORKFLOW"` as META and the items with `type == "TASK"` as
tasks. -/
def queryWorkflow (table : List Item) (wf : String) :
    Option Item × List Item :=
  let items := table.filter (fun i => i.pk = pkOf wf)
  (items.find? (fun i => i.sk = skMeta),
   items.filter (fun i => i.itemType = "TASK"))

/-- `_get_workflow_by_id`: 400 when the path id is absent or empty
(`if not workflow_id`), 404 when no META row exists, otherwise 200 with
the META status, the task rows, and the hard-coded `dag`. -/
def getWorkflowById (table : List Item) (pathId : Option String) :
    ApiResponse :=
  match pathId with
  | none =>
    { statusCode := 400, workflowId := none, status := none, tasks := none,
      dag := none, errMsg := some "Missing id" }
  | some wf =>
    if wf = "" then
      { statusCode := 400, workflowId := none, status := none, tasks := none,
        dag := none, errMsg := some "Missing id" }
    else
      match queryWorkflow table wf with
      | (none, _) =>
        { statusCode := 404, workflowId := none, status := none, tasks := none,
          dag := none, errMsg := some ("Workflow " ++ wf ++ " not found") }
      | (some meta, tasks) =>
        { statusCode := 200, workflowId := some wf, status := some meta.status,
          tasks := some tasks, dag := some fixedDag, errMsg := none }

/-! ## Example records used as concrete inputs -/

/-- A sample task record with the given status, version and counter. -/
def exTask (st : Status) (ver : Nat) (rd : Int) : TaskRec :=
  { taskId := "T", status := st, dependsOn := "", dependents := "",
    remainingDeps := rd, version := ver, targetLambdaArn := "arn",
    result := none, error := none, durationMs := none }

/-- A sample `TaskExecutionRequest` with `expectedVersion = 1` and the
default `deadlineMs = 15000`. -/
def exReq : TaskExecutionRequest :=
  { workflowId := "w", taskId := "T", targetLambdaArn := "arn",
    expectedVersion := 1, deadlineMs := 15000, correlationId := "w" }

/-! ## C1: version monotonicity across transitions -/

/-- Helper: promotion strictly increases `version`. -/
theorem promoteUpdate_version_lt (t t' : TaskRec)
    (h : promoteUpdate t = some t') : t.version < t'.version := by
  unfold promoteUpdate at h
  split at h
  · cases h
    exact Nat.lt_succ_self _
  · cases h

/-- Helper: the worker claim strictly increases `version`. -/
theorem claimUpdate_version_lt (v : Nat) (t t' : TaskRec)
    (h : claimUpdate v t = some t') : t.version < t'.version := by
  unfold claimUpdate at h
  split at h
  · cases h
    exact Nat.lt_succ_self _
  · cases h

/-- C1 (corrected): the promotion PENDING→READY and the claim
READY→RUNNING strictly increase `version`, but both finalize transitions
(RUNNING→SUCCEEDED and RUNNING→FAILED) leave `version` unchanged. -/
theorem c1_version_increase_amended :
    (∀ t t', promoteUpdate t = some t' → t.version < t'.version) ∧
    (∀ v t t', claimUpdate v t = some t' → t.version < t'.version) ∧
    (∀ t res dur, (finalizeSuccess t res dur).version = t.version) ∧
    (∀ t msg, (finalizeFailure t msg).version = t.version) :=
  ⟨promoteUpdate_version_lt, claimUpdate_version_lt,
   fun _ _ _ => rfl, fun _ _ => rfl⟩

/-- Witness for C1's amended theorem at a concrete promotion. -/
theorem c1_version_increase_amended_witness :
    (exTask Status.PENDING 0 1).version < (exTask Status.READY 1 1).version :=
  c1_version_increase_amended.1 (exTask Status.PENDING 0 1)
    (exTask Status.READY 1 1) (by decide)

/-- C1 counterexample: finalizing a RUNNING task to SUCCEEDED leaves
`version` at its old value, so the transition does not strictly increase
`version` as the claim states. -/
theorem c1_counterexample :
    (finalizeSuccess (exTask Status.RUNNING 2 0) "ok" 5).version = 2 ∧
    ¬ (finalizeSuccess (exTask Status.RUNNING 2 0) "ok" 5).version > 2 := by
  decide

/-! ## C2: WorkflowMeta status recomputation -/

/-- Helper: the source's status chain agrees with the spec's tabulation on
every list of task statuses (the two differ only in the collapsed
all-PENDING fallback). -/
theorem computeWorkflowStatus_eq_spec (l : List Status) :
    computeWorkflowStatus l = specWorkflowStatus l := by
  unfold computeWorkflowStatus specWorkflowStatus
  split_ifs <;> rfl

/-- C2 (confirmed): for a workflow with at least one TASK record, the
status `_update_workflow_status` writes is exactly the §4.2.4 tabulation
of the task statuses: FAILED if any FAILED, else SUCCEEDED if all
SUCCEEDED, else RUNNING if any RUNNING or READY, else PENDING. -/
theorem c2_meta_status_is_spec_function (table : List Item) (wf : String)
    (h : tasksOf table wf ≠ []) :
    updateWorkflowStatus table wf =
      some (specWorkflowStatus ((tasksOf table wf).map (fun i => i.status))) := by
  unfold updateWorkflowStatus
  rw [if_neg h, computeWorkflowStatus_eq_spec]

/-- Witness for C2 at a one-task table. -/
theorem c2_meta_status_is_spec_function_witness :
    updateWorkflowStatus [taskSeedItem "w" "A" [] [] "arn"] "w" =
      some (specWorkflowStatus
        ((tasksOf [taskSeedItem "w" "A" [] [] "arn"] "w").map (fun i => i.status))) :=
  c2_meta_status_is_spec_function [taskSeedItem "w" "A" [] [] "arn"] "w"
    (by decide)

/-! ## C4: the worker claim -/

/-- C4 (corrected): the worker invokes the target iff the stored task is
READY at exactly `expectedVersion`; when the guard fails the handler
changes nothing, does not invoke the target, and returns
`ok=false` with reason `"Not READY or version mismatch"` (not
`"stale or not ready"` as the spec words it). -/
theorem c4_claim_guard_amended (req : TaskExecutionRequest)
    (inv : InvokeResult) (t : TaskRec) :
    ((workerHandler req inv (some t)).invoked = true ↔
      (t.status = Status.READY ∧ t.version = req.expectedVersion)) ∧
    (¬ (t.status = Status.READY ∧ t.version = req.expectedVersion) →
      workerHandler req inv (some t) =
        ⟨some t, WorkerResp.rejected "Not READY or version mismatch", false⟩) := by
  by_cases h : t.status = Status.READY ∧ t.version = req.expectedVersion
  · cases inv <;> simp [workerHandler, claimUpdate, h]
  · cases inv <;> simp [workerHandler, claimUpdate, h]

/-- Witness for C4 at a concrete stale request (task already RUNNING). -/
theorem c4_claim_guard_amended_witness :
    workerHandler exReq (InvokeResult.success "ok" 3)
        (some (exTask Status.RUNNING 1 0)) =
      ⟨some (exTask Status.RUNNING 1 0),
       WorkerResp.rejected "Not READY or version mismatch", false⟩ :=
  (c4_claim_guard_amended exReq (InvokeResult.success "ok" 3)
    (exTask Status.RUNNING 1 0)).2 (by decide)

/-- C4 counterexample: on a rejected claim the worker's reason string is
`"Not READY or version mismatch"`, not the claimed
`"stale or not ready"`. -/
theorem c4_counterexample :
    (workerHandler exReq (InvokeResult.success "ok" 3)
        (some (exTask Status.RUNNING 1 0))).resp ≠
      WorkerResp.rejected "stale or not ready" ∧
    (workerHandler exReq (InvokeResult.success "ok" 3)
        (some (exTask Status.RUNNING 1 0))).resp =
      WorkerResp.rejected "Not READY or version mismatch" := by
  decide

/-! ## C6: deadline handling in the worker -/

/-- C6 (corrected): the worker never reads `deadlineMs` — its entire run
is invariant under changing the request's deadline — and it records
FAILED (with the error message) exactly when the invocation itself fails;
a successful invocation is recorded SUCCEEDED no matter how long it
took. -/
theorem c6_deadline_ignored_amended (req : TaskExecutionRequest)
    (d1 d2 : Nat) (inv : InvokeResult) (stored : Option TaskRec)
    (t running : TaskRec) (msg res : String) (dur : Nat) :
    workerHandler { req with deadlineMs := d1 } inv stored =
      workerHandler { req with deadlineMs := d2 } inv stored ∧
    (claimUpdate req.expectedVersion t = some running →
      (workerHandler req (InvokeResult.failure msg) (some t)).task =
          some (finalizeFailure running msg) ∧
        (finalizeFailure running msg).status = Status.FAILED ∧
        (finalizeFailure running msg).error = some msg ∧
      (workerHandler req (InvokeResult.success res dur) (some t)).task =
          some (finalizeSuccess running res dur) ∧
        (finalizeSuccess running res dur).status = Status.SUCCEEDED) := by
  constructor
  · rfl
  · intro h
    simp [workerHandler, h, finalizeFailure, finalizeSuccess]

/-- Witness for C6 at a concrete READY task. -/
theorem c6_deadline_ignored_amended_witness :
    workerHandler { exReq with deadlineMs := 1 }
        (InvokeResult.success "ok" 3) (some (exTask Status.READY 1 0)) =
      workerHandler { exReq with deadlineMs := 10 }
        (InvokeResult.success "ok" 3) (some (exTask Status.READY 1 0)) :=
  (c6_deadline_ignored_amended exReq 1 10 (InvokeResult.success "ok" 3)
    (some (exTask Status.READY 1 0)) (exTask Status.READY 1 0)
    (exTask Status.RUNNING 2 0) "m" "ok" 3).1

/-- C6 counterexample: an invocation lasting 20000 ms against a request
with `deadlineMs = 15000` is still recorded SUCCEEDED, not FAILED. -/
theorem c6_counterexample :
    20000 > exReq.deadlineMs ∧
    ((workerHandler exReq (InvokeResult.success "ok" 20000)
        (some (exTask Status.READY 1 0))).task.map (fun t => t.status)) =
      some Status.SUCCEEDED ∧
    ((workerHandler exReq (InvokeResult.success "ok" 20000)
        (some (exTask Status.READY 1 0))).task.map (fun t => t.status)) ≠
      some Status.FAILED := by
  decide

/-! ## C10: the hard-coded `dag` of GET /workflows/\x7bid\x7d -/

/-- C10 (confirmed): whenever the META row of a workflow exists, the
GET-by-id endpoint answers 200 with `dag` equal to the fixed mapping
A→[B1,B2,B3], B1→[C], B2→[C], B3→[C], C→[], whatever task rows are
stored. -/
theorem c10_dag_hardcoded (table : List Item) (wf : String) (meta : Item)
    (hwf : wf ≠ "") (hmeta : (queryWorkflow table wf).1 = some meta) :
    (getWorkflowById table (some wf)).statusCode = 200 ∧
    (getWorkflowById table (some wf)).dag = some fixedDag := by
  rcases hq : queryWorkflow table wf with ⟨mo, ts⟩
  rw [hq] at hmeta
  obtain rfl : mo = some meta := hmeta
  simp [getWorkflowById, hwf, hq]

/-- Witness for C10 at a table holding one META row and one stray task. -/
theorem c10_dag_hardcoded_witness :
    (getWorkflowById [metaItem "w", taskSeedItem "w" "X" [] [] "arn"]
        (some "w")).statusCode = 200 ∧
    (getWorkflowById [metaItem "w", taskSeedItem "w" "X" [] [] "arn"]
        (some "w")).dag = some fixedDag :=
  c10_dag_hardcoded [metaItem "w", taskSeedItem "w" "X" [] [] "arn"] "w"
    (metaItem "w") (by decide) (by decide)

/-! ## C5: seed failure modes -/

/-- C5 (corrected): the seed operation fails exactly when one of the five
hard-coded task ids is missing from the address mapping, and the failure
is a `KeyError` naming a missing id (raised before any record is
written), with `"A"` reported first; the hard-coded graph being fixed and
acyclic, no cycle case exists and no `InvalidGraph` error is ever
produced. -/
theorem c5_seed_errors_amended (wf : String)
    (lambdas : List (String × String)) :
    ((∃ e, startFromTemplate wf lambdas = Except.error e) ↔
      (lambdas.lookup "A" = none ∨ lambdas.lookup "B1" = none ∨
       lambdas.lookup "B2" = none ∨ lambdas.lookup "B3" = none ∨
       lambdas.lookup "C" = none)) ∧
    (lambdas.lookup "A" = none →
      startFromTemplate wf lambdas = Except.error (SeedError.keyError "A")) := by
  cases hA : lambdas.lookup "A" <;> cases hB1 : lambdas.lookup "B1" <;>
    cases hB2 : lambdas.lookup "B2" <;> cases hB3 : lambdas.lookup "B3" <;>
    cases hC : lambdas.lookup "C" <;>
    simp [startFromTemplate, getKey, hA, hB1, hB2, hB3, hC]

/-- Witness for C5: an empty address mapping makes the seed raise
`KeyError("A")`. -/
theorem c5_seed_errors_amended_witness :
    startFromTemplate "wf-empty" [] = Except.error (SeedError.keyError "A") :=
  (c5_seed_errors_amended "wf-empty" []).2 rfl

/-- C5 counterexample: with `"A"` absent from the address mapping the seed
fails with a `KeyError` (the embedding's only seed failure), not with an
`InvalidGraph` error as claimed. -/
theorem c5_counterexample :
    startFromTemplate "wf1" [("B1", "arn1")] =
      Except.error (SeedError.keyError "A") := by
  rfl

/-! ## C9: seed round-trip -/

/-- The task record the spec's round-trip property expects for a node
(stated from the spec's words, to be compared with the seeded items):
`remainingDeps = |dependsOn|` and `status = READY` iff the node has no
parents. -/
def specTaskItem (wf id : String) (dependsOn dependents : List String)
    (target : String) : Item :=
  { pk := pkOf wf, sk := skTask id, itemType := "TASK", taskId := some id,
    status := if dependsOn = [] then Status.READY else Status.PENDING,
    dependsOn := some (String.intercalate "," dependsOn),
    dependents := some (String.intercalate "," dependents),
    remainingDeps := some (dependsOn.length : Int),
    version := some 0,
    targetLambdaArn := some target }

/-- C9 (confirmed): seeding writes, in the workflow's own partition,
exactly one META record with status PENDING and exactly one TASK record
per node of the seeded DAG, each with `remainingDeps = |dependsOn|` and
`status = READY` iff the node has no parents. -/
theorem c9_seed_roundtrip (wf : String) (lambdas : List (String × String))
    (la lb1 lb2 lb3 lc : String)
    (hA : lambdas.lookup "A" = some la)
    (hB1 : lambdas.lookup "B1" = some lb1)
    (hB2 : lambdas.lookup "B2" = some lb2)
    (hB3 : lambdas.lookup "B3" = some lb3)
    (hC : lambdas.lookup "C" = some lc) :
    ∃ s, startFromTemplate wf lambdas = Except.ok s ∧
      s.items.filter (fun i => i.pk = pkOf wf) = s.items ∧
      s.items.filter (fun i => i.itemType = "META") = [metaItem wf] ∧
      (metaItem wf).status = Status.PENDING ∧
      s.items.filter (fun i => i.itemType = "TASK") =
        [ specTaskItem wf "A" [] ["B1", "B2", "B3"] la,
          specTaskItem wf "B1" ["A"] ["C"] lb1,
          specTaskItem wf "B2" ["A"] ["C"] lb2,
          specTaskItem wf "B3" ["A"] ["C"] lb3,
          specTaskItem wf "C" ["B1", "B2", "B3"] [] lc ] := by
  simp only [startFromTemplate, getKey, hA, hB1, hB2, hB3, hC]
  refine ⟨_, rfl, ?_, ?_, rfl, ?_⟩ <;>
    simp [metaItem, taskSeedItem, specTaskItem, pkOf, skMeta, skTask]

/-- Witness for C9 at a concrete five-entry address mapping. -/
theorem c9_seed_roundtrip_witness :
    (startFromTemplate "w9"
        [("A", "a"), ("B1", "b1"), ("B2", "b2"), ("B3", "b3"), ("C", "c")]).map
        (fun s => s.items.filter (fun i => i.itemType = "TASK")) =
      Except.ok
        [ specTaskItem "w9" "A" [] ["B1", "B2", "B3"] "a",
          specTaskItem "w9" "B1" ["A"] ["C"] "b1",
          specTaskItem "w9" "B2" ["A"] ["C"] "b2",
          specTaskItem "w9" "B3" ["A"] ["C"] "b3",
          specTaskItem "w9" "C" ["B1", "B2", "B3"] [] "c" ] := by
  obtain ⟨s, hs, -, -, -, htasks⟩ :=
    c9_seed_roundtrip "w9"
      [("A", "a"), ("B1", "b1"), ("B2", "b2"), ("B3", "b3"), ("C", "c")]
      "a" "b1" "b2" "b3" "c" rfl rfl rfl rfl rfl
  rw [hs]
  exact congrArg Except.ok htasks

/-! ## C7: which stream events trigger recomputation and broadcast -/

/-- C7 (corrected): the orchestrator ignores any stream record without a
usable new image, and recomputes/broadcasts exactly for MODIFY/INSERT
records of a TASK whose new status is SUCCEEDED or FAILED and differs
from the old status; transitions to READY or RUNNING are ignored. -/
theorem c7_routing_amended (rec : StreamRecord) :
    (rec.newImage = none → routeRecord rec = ReactAction.ignore) ∧
    (∀ newImg, rec.newImage = some newImg →
      (routeRecord rec ≠ ReactAction.ignore ↔
        ((rec.eventName = "MODIFY" ∨ rec.eventName = "INSERT") ∧
         newImg.imgType = some "TASK" ∧
         (newImg.status = some Status.SUCCEEDED ∨
          newImg.status = some Status.FAILED) ∧
         rec.oldImage.bind (fun o => o.status) ≠ newImg.status))) := by
  obtain ⟨ev, oldI, newI⟩ := rec
  constructor
  · rintro rfl
    unfold routeRecord
    split_ifs <;> rfl
  · rintro newImg rfl
    simp only [routeRecord]
    by_cases hev : ev ≠ "MODIFY" ∧ ev ≠ "INSERT" <;>
      by_cases hT : newImg.imgType = some "TASK" <;>
      by_cases hS : newImg.status = some Status.SUCCEEDED <;>
      by_cases hF : newImg.status = some Status.FAILED <;>
      by_cases hOS : oldI.bind (fun o => o.status) = some Status.SUCCEEDED <;>
      by_cases hch : oldI.bind (fun o => o.status) = newImg.status <;>
      simp_all <;> tauto

/-- A stream record for a PENDING→READY task transition. -/
def exReadyRec : StreamRecord :=
  { eventName := "MODIFY",
    oldImage := some { imgType := some "TASK", status := some Status.PENDING },
    newImage := some { imgType := some "TASK", status := some Status.READY } }

/-- A stream record for a RUNNING→FAILED task transition. -/
def exFailedRec : StreamRecord :=
  { eventName := "MODIFY",
    oldImage := some { imgType := some "TASK", status := some Status.RUNNING },
    newImage := some { imgType := some "TASK", status := some Status.FAILED } }

/-- Witness for C7 at a concrete RUNNING→FAILED record. -/
theorem c7_routing_amended_witness :
    routeRecord exFailedRec ≠ ReactAction.ignore ↔
      ((exFailedRec.eventName = "MODIFY" ∨ exFailedRec.eventName = "INSERT") ∧
       (StreamImage.mk (some "TASK") (some Status.FAILED)).imgType = some "TASK" ∧
       ((StreamImage.mk (some "TASK") (some Status.FAILED)).status =
          some Status.SUCCEEDED ∨
        (StreamImage.mk (some "TASK") (some Status.FAILED)).status =
          some Status.FAILED) ∧
       exFailedRec.oldImage.bind (fun o => o.status) ≠
         (StreamImage.mk (some "TASK") (some Status.FAILED)).status) :=
  (c7_routing_amended exFailedRec).2
    (StreamImage.mk (some "TASK") (some Status.FAILED)) rfl

/-- C7 counterexample: a TASK record whose status changed PENDING→READY is
ignored by the orchestrator — no recomputation, no broadcast — although
the claim requires a recomputation for every status change. -/
theorem c7_counterexample :
    (exReadyRec.newImage.bind (fun o => o.status) ≠
      exReadyRec.oldImage.bind (fun o => o.status)) ∧
    routeRecord exReadyRec = ReactAction.ignore := by
  decide

/-! ## C3: redelivery of a parent-succeeded event -/

theorem setTask_self (s : Store) (d : String) (t : TaskRec) :
    setTask s d t d = some t := by
  simp [setTask]

theorem setTask_other (s : Store) (d d' : String) (t : TaskRec)
    (h : d' ≠ d) : setTask s d t d' = s d' := by
  simp [setTask, h]

/-- Helper: an accepted decrement lowers `remainingDeps` by one, and (its
guard being `remainingDeps > 0`) the new value is still nonnegative. -/
theorem decrementUpdate_spec (t t1 : TaskRec)
    (h : decrementUpdate t = some t1) :
    t1.remainingDeps = t.remainingDeps - 1 ∧ 0 ≤ t1.remainingDeps ∧
    t1.status = t.status := by
  unfold decrementUpdate at h
  split at h
  · rename_i hg
    cases h
    refine ⟨rfl, ?_, rfl⟩
    show (0 : Int) ≤ t.remainingDeps - 1
    omega
  · cases h

/-- Helper: a rejected decrement means the counter was already ≤ 0. -/
theorem decrementUpdate_none (t : TaskRec)
    (h : decrementUpdate t = none) : t.remainingDeps ≤ 0 := by
  unfold decrementUpdate at h
  split at h
  · cases h
  · rename_i hg
    omega

/-- Helper: promotion does not touch `remainingDeps`. -/
theorem promoteUpdate_rd (t t1 : TaskRec)
    (h : promoteUpdate t = some t1) :
    t1.remainingDeps = t.remainingDeps := by
  unfold promoteUpdate at h
  split at h
  · cases h
    rfl
  · cases h

/-- Helper: processing one dependent leaves every other key unchanged. -/
theorem processDependent_frame (wf : String) (s : Store) (d d' : String)
    (h : d' ≠ d) : (processDependent wf s d).1 d' = s d' := by
  unfold processDependent
  dsimp only
  split
  · rfl
  · split
    · rfl
    · split
      · split <;> simp [setTask, h]
      · simp [setTask, h]

/-- Helper: if the record of `d` is nonnegative before, it is after. -/
theorem processDependent_nonneg (wf : String) (s : Store) (d : String)
    (hnn : ∀ t, s d = some t → 0 ≤ t.remainingDeps) :
    ∀ t', (processDependent wf s d).1 d = some t' → 0 ≤ t'.remainingDeps := by
  intro t' h
  unfold processDependent at h
  dsimp only at h
  split at h
  · exact hnn t' h
  · rename_i t heq
    split at h
    · exact hnn t' h
    · rename_i t1 hdec
      obtain ⟨-, h1, -⟩ := decrementUpdate_spec t t1 hdec
      split at h
      · split at h
        · replace h : setTask s d t1 d = some t' := h
          rw [setTask_self] at h
          cases h
          exact h1
        · rename_i t2 hp
          replace h : setTask (setTask s d t1) d t2 d = some t' := h
          rw [setTask_self] at h
          have h2 := Option.some.inj h
          rw [← h2, promoteUpdate_rd t1 t2 hp]
          exact h1
      · replace h : setTask s d t1 d = some t' := h
        rw [setTask_self] at h
        cases h
        exact h1

/-- Helper: a dependent whose counter is already ≤ 0 makes the whole
dependency step a no-op that emits nothing. -/
theorem processDependent_settled (wf : String) (s : Store) (d : String)
    (hs : ∀ t, s d = some t → t.remainingDeps ≤ 0) :
    processDependent wf s d = (s, []) := by
  unfold processDependent
  dsimp only
  split
  · rfl
  · rename_i t heq
    have hle := hs t heq
    have hdec : decrementUpdate t = none := by
      unfold decrementUpdate
      rw [if_neg (by omega)]
    rw [hdec]

/-- Helper: one dependency step drives a counter that was ≤ 1 down
to ≤ 0. -/
theorem processDependent_settles (wf : String) (s : Store) (d : String)
    (hb : ∀ t, s d = some t → t.remainingDeps ≤ 1) :
    ∀ t', (processDependent wf s d).1 d = some t' → t'.remainingDeps ≤ 0 := by
  intro t' h
  unfold processDependent at h
  dsimp only at h
  split at h
  · rename_i heq
    replace h : s d = some t' := h
    rw [heq] at h
    cases h
  · rename_i t heq
    have hle := hb t heq
    split at h
    · rename_i hdec
      replace h : s d = some t' := h
      rw [heq] at h
      have h2 := Option.some.inj h
      rw [← h2]
      exact decrementUpdate_none t hdec
    · rename_i t1 hdec
      obtain ⟨h1, -, -⟩ := decrementUpdate_spec t t1 hdec
      split at h
      · split at h
        · replace h : setTask s d t1 d = some t' := h
          rw [setTask_self] at h
          cases h
          omega
        · rename_i t2 hp
          replace h : setTask (setTask s d t1) d t2 d = some t' := h
          rw [setTask_self] at h
          have h2 := Option.some.inj h
          rw [← h2, promoteUpdate_rd t1 t2 hp]
          omega
      · replace h : setTask s d t1 d = some t' := h
        rw [setTask_self] at h
        cases h
        omega

/-- Helper: the dependency loop leaves keys outside the dependents list
unchanged. -/
theorem processDependents_frame (wf : String) (ds : List String) :
    ∀ s d, d ∉ ds → (processDependents wf s ds).1 d = s d := by
  induction ds with
  | nil => intro s d _; rfl
  | cons d0 rest ih =>
    intro s d hd
    have hne : d ≠ d0 := fun h => hd (h ▸ List.mem_cons_self d0 rest)
    have hrest : d ∉ rest := fun h => hd (List.mem_cons_of_mem d0 h)
    show (processDependents wf (processDependent wf s d0).1 rest).1 d = s d
    rw [ih (processDependent wf s d0).1 d hrest,
      processDependent_frame wf s d0 d hne]

/-- Helper: a settled key stays settled through the dependency loop. -/
theorem processDependents_settled_pres (wf : String) (ds : List String) :
    ∀ s d, (∀ t, s d = some t → t.remainingDeps ≤ 0) →
      ∀ t, (processDependents wf s ds).1 d = some t → t.remainingDeps ≤ 0 := by
  induction ds with
  | nil => intro s d hsd t h; exact hsd t h
  | cons d0 rest ih =>
    intro s d hsd t h
    replace h :
        (processDependents wf (processDependent wf s d0).1 rest).1 d = some t := h
    by_cases hdd : d = d0
    · subst hdd
      rw [processDependent_settled wf s d hsd] at h
      exact ih s d hsd t h
    · refine ih (processDependent wf s d0).1 d ?_ t h
      intro u hu
      rw [processDependent_frame wf s d0 d hdd] at hu
      exact hsd u hu

/-- Helper: after the dependency loop every dependent that started with a
counter ≤ 1 is settled (counter ≤ 0). -/
theorem processDependents_settles (wf : String) (ds : List String) :
    ∀ s d, d ∈ ds → (∀ t, s d = some t → t.remainingDeps ≤ 1) →
      ∀ t, (processDependents wf s ds).1 d = some t → t.remainingDeps ≤ 0 := by
  induction ds with
  | nil => intro s d hd; cases hd
  | cons d0 rest ih =>
    intro s d hd hb t h
    replace h :
        (processDependents wf (processDependent wf s d0).1 rest).1 d = some t := h
    by_cases hdd : d = d0
    · subst hdd
      refine processDependents_settled_pres wf rest (processDependent wf s d).1
        d ?_ t h
      exact processDependent_settles wf s d hb
    · have hd' : d ∈ rest := by
        rcases List.mem_cons.mp hd with h' | h'
        · exact absurd h' hdd
        · exact h'
      refine ih (processDependent wf s d0).1 d hd' ?_ t h
      intro u hu
      rw [processDependent_frame wf s d0 d hdd] at hu
      exact hb u hu

/-- Helper: when every dependent is settled the whole loop is a no-op and
emits no requests. -/
theorem processDependents_settled_noop (wf : String) (ds : List String) :
    ∀ s, (∀ d ∈ ds, ∀ t, s d = some t → t.remainingDeps ≤ 0) →
      processDependents wf s ds = (s, []) := by
  induction ds with
  | nil => intro s _; rfl
  | cons d0 rest ih =>
    intro s hs
    have h0 : processDependent wf s d0 = (s, []) :=
      processDependent_settled wf s d0 (hs d0 (List.mem_cons_self d0 rest))
    show ((processDependents wf (processDependent wf s d0).1 rest).1,
        (processDependent wf s d0).2 ++
          (processDependents wf (processDependent wf s d0).1 rest).2) = (s, [])
    rw [h0, ih s (fun d hd => hs d (List.mem_cons_of_mem d0 hd))]
    rfl

/-- Helper: the dependency loop keeps every counter nonnegative. -/
theorem processDependents_nonneg (wf : String) (ds : List String) :
    ∀ s, (∀ d t, s d = some t → 0 ≤ t.remainingDeps) →
      ∀ d t, (processDependents wf s ds).1 d = some t → 0 ≤ t.remainingDeps := by
  induction ds with
  | nil => intro s hnn d t h; exact hnn d t h
  | cons d0 rest ih =>
    intro s hnn d t h
    replace h :
        (processDependents wf (processDependent wf s d0).1 rest).1 d = some t := h
    refine ih (processDependent wf s d0).1 ?_ d t h
    intro d' t' h'
    by_cases hdd : d' = d0
    · subst hdd
      exact processDependent_nonneg wf s d' (hnn d') t' h'
    · rw [processDependent_frame wf s d0 d' hdd] at h'
      exact hnn d' t' h'

/-- Helper: replaying an event over an already settled store any number of
times changes nothing and emits nothing. -/
theorem replayEvent_settled_noop (wf : String) (deps : List String)
    (n : Nat) :
    ∀ s, (∀ d ∈ deps, ∀ t, s d = some t → t.remainingDeps ≤ 0) →
      replayEvent wf deps n s = (s, []) := by
  induction n with
  | zero => intro s _; rfl
  | succ m ih =>
    intro s hs
    have h0 : processDependents wf s deps = (s, []) :=
      processDependents_settled_noop wf deps s hs
    show ((replayEvent wf deps m (processDependents wf s deps).1).1,
        (processDependents wf s deps).2 ++
          (replayEvent wf deps m (processDependents wf s deps).1).2) = (s, [])
    rw [h0, ih s hs]
    rfl

/-- C3 (corrected): when every dependent of the event holds at most one
outstanding dependency (`remainingDeps ≤ 1`, as the reference event
A=SUCCEEDED does), replaying the event N+1 times yields exactly the state
and requests of replaying it once — the promotion fires at most once and
redeliveries are dropped — and `remainingDeps` never goes below 0.
Without that bound the `remainingDeps > 0` guard does not deduplicate
per parent: each delivery decrements again (see the counterexample). -/
theorem c3_replay_idempotent_amended (wf : String) (deps : List String)
    (s : Store) (n : Nat)
    (hb : ∀ d ∈ deps, ∀ t, s d = some t → t.remainingDeps ≤ 1)
    (hnn : ∀ d t, s d = some t → 0 ≤ t.remainingDeps) :
    replayEvent wf deps (n + 1) s = replayEvent wf deps 1 s ∧
    ∀ d t, (replayEvent wf deps 1 s).1 d = some t → 0 ≤ t.remainingDeps := by
  have hset : ∀ d ∈ deps, ∀ t,
      (processDependents wf s deps).1 d = some t → t.remainingDeps ≤ 0 :=
    fun d hd => processDependents_settles wf deps s d hd (hb d hd)
  have e2 : replayEvent wf deps (n + 1) s =
      ((replayEvent wf deps n (processDependents wf s deps).1).1,
       (processDependents wf s deps).2 ++
         (replayEvent wf deps n (processDependents wf s deps).1).2) := rfl
  have e1 : replayEvent wf deps 1 s =
      ((replayEvent wf deps 0 (processDependents wf s deps).1).1,
       (processDependents wf s deps).2 ++
         (replayEvent wf deps 0 (processDependents wf s deps).1).2) := rfl
  constructor
  · rw [e1, e2, replayEvent_settled_noop wf deps n _ hset,
      replayEvent_settled_noop wf deps 0 _ hset]
  · intro d t h
    rw [e1] at h
    rw [replayEvent_settled_noop wf deps 0 _ hset] at h
    exact processDependents_nonneg wf deps s hnn d t h

/-- The store seeded for the reference DAG right after A succeeded: each B
has one outstanding dependency, C has three. -/
def seedStore : Store := fun k =>
  if k = "A" then some (exTask Status.SUCCEEDED 1 0)
  else if k = "B1" then some (exTask Status.PENDING 0 1)
  else if k = "B2" then some (exTask Status.PENDING 0 1)
  else if k = "B3" then some (exTask Status.PENDING 0 1)
  else if k = "C" then some (exTask Status.PENDING 0 3)
  else none

/-- Witness for C3: replaying A=SUCCEEDED three times over the seeded
store equals replaying it once. -/
theorem c3_replay_idempotent_amended_witness :
    replayEvent "w" ["B1", "B2", "B3"] 3 seedStore =
      replayEvent "w" ["B1", "B2", "B3"] 1 seedStore :=
  (c3_replay_idempotent_amended "w" ["B1", "B2", "B3"] seedStore 2
    (by
      intro d hd t ht
      fin_cases hd <;>
        · simp only [seedStore] at ht
          simp at ht
          rw [← ht]
          decide)
    (by
      intro d t ht
      unfold seedStore at ht
      split_ifs at ht <;> cases ht <;> decide)).1

/-- A dependent with two outstanding dependencies. -/
def cStore : Store := fun k =>
  if k = "C" then some (exTask Status.PENDING 0 2) else none

/-- C3 counterexample: replaying one parent-succeeded event twice against
a dependent with `remainingDeps = 2` decrements it twice (once per
delivery, not once per distinct parent success) and promotes it to READY,
emitting a TaskExecutionRequest — a terminal state different from a
single delivery, which leaves the dependent PENDING with
`remainingDeps = 1` and emits nothing. -/
theorem c3_counterexample :
    (replayEvent "w" ["C"] 1 cStore).1 "C" =
      some (exTask Status.PENDING 0 1) ∧
    (replayEvent "w" ["C"] 1 cStore).2 = [] ∧
    (replayEvent "w" ["C"] 2 cStore).1 "C" =
      some (exTask Status.READY 1 0) ∧
    (replayEvent "w" ["C"] 2 cStore).2 =
      [mkExecRequest "w" "C" (exTask Status.READY 1 0)] ∧
    (replayEvent "w" ["C"] 2 cStore).1 "C" ≠
      (replayEvent "w" ["C"] 1 cStore).1 "C" := by
  decide

/-! ## C8: broadcast fan-out and connection reaping -/

/-- Helper: the ids attempted by the send loop are exactly the ids of the
snapshot's connections passing the attempt filter, regardless of the
registry accumulator. -/
theorem broadcastLoop_attempted (attempt remove : Conn → Bool)
    (l : List Conn) :
    ∀ reg, (broadcastLoop attempt remove reg l).2 =
      (l.filter attempt).map (fun c => c.connectionId) := by
  induction l with
  | nil => intro reg; rfl
  | cons c rest ih =>
    intro reg
    unfold broadcastLoop
    cases ha : attempt c
    · simp [ha, ih]
    · cases hr : remove c <;> simp [ha, hr, ih]

/-- Helper: the send loop never adds a connection to the registry. -/
theorem broadcastLoop_subset (attempt remove : Conn → Bool)
    (l : List Conn) :
    ∀ reg c, c ∈ (broadcastLoop attempt remove reg l).1 → c ∈ reg := by
  induction l with
  | nil => intro reg c h; exact h
  | cons d rest ih =>
    intro reg c h
    unfold broadcastLoop at h
    dsimp only at h
    split at h
    · split at h
      · exact List.mem_of_mem_filter
          (ih (deleteConn reg d.connectionId) c h)
      · exact ih reg c h
    · exact ih reg c h

/-- Helper: a connection of the snapshot that is attempted and whose send
outcome triggers removal is absent (by id) from the final registry. -/
theorem broadcastLoop_removed (attempt remove : Conn → Bool)
    (l : List Conn) :
    ∀ reg c0, c0 ∈ l → attempt c0 = true → remove c0 = true →
      ∀ c ∈ (broadcastLoop attempt remove reg l).1,
        c.connectionId ≠ c0.connectionId := by
  induction l with
  | nil => intro reg c0 h; cases h
  | cons d rest ih =>
    intro reg c0 hmem ha hr c hc
    rcases List.mem_cons.mp hmem with heq | hmem'
    · have ha' : attempt d = true := heq ▸ ha
      have hr' : remove d = true := heq ▸ hr
      unfold broadcastLoop at hc
      dsimp only at hc
      rw [if_pos ha', if_pos hr'] at hc
      dsimp only at hc
      have hsub := broadcastLoop_subset attempt remove rest
        (deleteConn reg d.connectionId) c hc
      have hkeep := (List.mem_filter.mp hsub).2
      have hne := of_decide_eq_true hkeep
      rw [heq]
      exact hne
    · unfold broadcastLoop at hc
      dsimp only at hc
      split at hc
      · split at hc
        · exact ih (deleteConn reg d.connectionId) c0 hmem' ha hr c hc
        · exact ih reg c0 hmem' ha hr c hc
      · exact ih reg c0 hmem' ha hr c hc

/-- Helper: a registry connection whose id never triggers a removal during
the snapshot walk stays in the registry. -/
theorem broadcastLoop_kept (attempt remove : Conn → Bool) (l : List Conn) :
    ∀ reg c, c ∈ reg →
      (∀ c' ∈ l, attempt c' = true → remove c' = true →
        c'.connectionId ≠ c.connectionId) →
      c ∈ (broadcastLoop attempt remove reg l).1 := by
  induction l with
  | nil => intro reg c hc _; exact hc
  | cons d rest ih =>
    intro reg c hc hsafe
    have hsafe' : ∀ c' ∈ rest, attempt c' = true → remove c' = true →
        c'.connectionId ≠ c.connectionId :=
      fun c' h' => hsafe c' (List.mem_cons_of_mem d h')
    unfold broadcastLoop
    dsimp only
    cases ha : attempt d
    · simp only [ha, Bool.false_eq_true, if_false]
      exact ih reg c hc hsafe'
    · cases hr : remove d
      · simp only [ha, hr, Bool.false_eq_true, if_true, if_false]
        exact ih reg c hc hsafe'
      · simp only [ha, hr, if_true]
        have hne : d.connectionId ≠ c.connectionId :=
          hsafe d (List.mem_cons_self d rest) ha hr
        refine ih (deleteConn reg d.connectionId) c ?_ hsafe'
        exact List.mem_filter.mpr ⟨hc, decide_eq_true (Ne.symm hne)⟩

/-- C8 (corrected): the WebSocket-API broadcaster attempts exactly the
connections whose filter is absent or equals the workflow, removes a
connection (by id) on GONE so a second broadcast no longer attempts it,
and keeps connections whose send did not return GONE; the orchestrator's
own broadcaster, however, attempts every registered connection regardless
of its filter, and removes connections on GONE and also on Forbidden
errors. -/
theorem c8_broadcast_reaping_amended (wf : String)
    (send : String → SendOutcome) (reg : List Conn) :
    ((broadcastWsRun wf send reg).2 =
      (reg.filter (matchesFilter wf)).map (fun c => c.connectionId)) ∧
    ((broadcastOrchRun wf send reg).2 =
      reg.map (fun c => c.connectionId)) ∧
    (∀ c, c ∈ reg → matchesFilter wf c = true →
      send c.connectionId = SendOutcome.gone →
      ((broadcastWsRun wf send reg).1.all
          (fun c' => c'.connectionId ≠ c.connectionId) ∧
        (broadcastWsRun wf send (broadcastWsRun wf send reg).1).2.all
          (fun cid => cid ≠ c.connectionId))) ∧
    (∀ c, c ∈ reg → send c.connectionId ≠ SendOutcome.gone →
      (∀ c' ∈ reg, c'.connectionId = c.connectionId → c' = c) →
      c ∈ (broadcastWsRun wf send reg).1) ∧
    (∀ c, c ∈ reg →
      (send c.connectionId = SendOutcome.gone ∨
        send c.connectionId = SendOutcome.forbidden) →
      (broadcastOrchRun wf send reg).1.all
        (fun c' => c'.connectionId ≠ c.connectionId)) := by
  refine ⟨broadcastLoop_attempted _ _ reg reg, ?_, ?_, ?_, ?_⟩
  · unfold broadcastOrchRun
    rw [broadcastLoop_attempted]
    simp
  · intro c hc hf hg
    have hrem := broadcastLoop_removed (matchesFilter wf)
      (fun c' => send c'.connectionId = SendOutcome.gone) reg reg c hc hf
      (decide_eq_true hg)
    constructor
    · rw [List.all_eq_true]
      intro c' hc'
      exact decide_eq_true (hrem c' hc')
    · rw [List.all_eq_true]
      intro cid hcid
      unfold broadcastWsRun at hcid
      rw [broadcastLoop_attempted] at hcid
      rcases List.mem_map.mp hcid with ⟨c', hc', rfl⟩
      exact decide_eq_true (hrem c' (List.mem_of_mem_filter hc'))
  · intro c hc hng hd
    refine broadcastLoop_kept _ _ reg reg c hc ?_
    intro c' hc' _ hr' hEq
    have hg' : send c'.connectionId = SendOutcome.gone := of_decide_eq_true hr'
    rw [hEq] at hg'
    exact hng (by rw [← hd c' hc' hEq] at hg' ⊢; exact hg')
  · intro c hc hgf
    have hrem := broadcastLoop_removed (fun _ => true)
      (fun c' => send c'.connectionId = SendOutcome.gone ∨
        send c'.connectionId = SendOutcome.forbidden) reg reg c hc rfl
      (decide_eq_true hgf)
    rw [List.all_eq_true]
    intro c' hc'
    exact decide_eq_true (hrem c' hc')

/-- Three connections: one subscribed to all, one filtered to another
workflow, one (doomed) filtered to `"wf"`. -/
def regW : List Conn :=
  [⟨"c1", none⟩, ⟨"c2", some "other"⟩, ⟨"c3", some "wf"⟩]

/-- A send that loses connection `"c3"` (GONE) and reaches the others. -/
def sendW : String → SendOutcome :=
  fun cid => if cid = "c3" then SendOutcome.gone else SendOutcome.ok

/-- Witness for C8 on the three-connection registry: attempted ids of the
filtered broadcaster, reaping of `"c3"`, absence from the second round,
and survival of `"c1"`. -/
theorem c8_broadcast_reaping_amended_witness :
    (broadcastWsRun "wf" sendW regW).2 = ["c1", "c3"] ∧
    (broadcastWsRun "wf" sendW regW).1.all
      (fun c' => c'.connectionId ≠ "c3") ∧
    (broadcastWsRun "wf" sendW (broadcastWsRun "wf" sendW regW).1).2.all
      (fun cid => cid ≠ "c3") ∧
    (⟨"c1", none⟩ : Conn) ∈ (broadcastWsRun "wf" sendW regW).1 := by
  have h := c8_broadcast_reaping_amended "wf" sendW regW
  have hgone := h.2.2.1 ⟨"c3", some "wf"⟩ (by decide) (by decide) (by decide)
  exact ⟨h.1.trans (by decide), hgone.1, hgone.2,
    h.2.2.2.1 ⟨"c1", none⟩ (by decide) (by decide) (by decide)⟩

/-- C8 counterexample: the orchestrator's broadcaster attempts connection
`"c2"` although its filter (`"other"`) differs from the broadcast's
workflow (`"wf"`), contradicting the claim that a send is attempted
exactly to connections whose filter is absent or matches. -/
theorem c8_counterexample :
    matchesFilter "wf" ⟨"c2", some "other"⟩ = false ∧
    (broadcastOrchRun "wf" sendW regW).2 = ["c1", "c2", "c3"] ∧
    (broadcastWsRun "wf" sendW regW).2 = ["c1", "c3"] := by
  decide

end Orchestra
